import Mathlib

/-!
Verification development for the `auto_rustup_update` repository
(`src/lib.rs`, `src/main.rs`): a shallow embedding of the update-decision
engine (the `rustup check` output parser, the suppression-flag state
machine, the zenity exit-code protocol and the `auto_update`
orchestrator), together with theorems settling the specification claims.

Strings are embedded as `List Char`; machine integers (`u64` times,
`i64` mtimes, `i32` exit codes) as `Nat`/`Int` (no overflow is reachable
in the modelled arithmetic: the only subtraction is `u64::checked_sub`,
modelled explicitly); filesystem and subprocess effects are embedded by
explicit state passing (the flag file's state is an `Option Int`
modification time) with oracle parameters for the outcomes of the
external calls (I/O faults, the dialog's exit code, the updater's
success).
-/

deriving instance DecidableEq for Except

namespace AutoRustup

/-- Substring test, embedding Rust's `str::contains(pat)`:
`needle` occurs contiguously somewhere in `hay`. -/
def listContains (hay needle : List Char) : Bool :=
  hay.tails.any (fun t => needle.isPrefixOf t)

/-- Embedding of `line.split(" - ").next().unwrap()`: everything before
the first occurrence of `sep` (the whole list when `sep` does not
occur). Rust's `split` always yields a first item, so the `unwrap`
never fails. -/
def takeBeforeSep (sep : List Char) : List Char → List Char
  | [] => []
  | c :: rest =>
    if sep.isPrefixOf (c :: rest) then []
    else c :: takeBeforeSep sep rest

/-- Greedily split a leading run of ASCII digits (the `[0-9]+` atoms of
the version regex) from the rest. -/
def takeDigits : List Char → List Char × List Char
  | [] => ([], [])
  | c :: rest =>
    if c.isDigit then (c :: (takeDigits rest).1, (takeDigits rest).2)
    else ([], c :: rest)

/-- Try to match the regex `[0-9]+\.[0-9]+\.[0-9]+` at the head of `l`.
Each `[0-9]+` is greedy, and since a digit can never match `\.` the
greedy run is exactly what the regex engine commits to. Returns the
matched text and the remainder after the match. -/
def matchSemVer (l : List Char) : Option (List Char × List Char) :=
  if (takeDigits l).1.isEmpty then none else
  match (takeDigits l).2 with
  | '.' :: r2 =>
    if (takeDigits r2).1.isEmpty then none else
    match (takeDigits r2).2 with
    | '.' :: r4 =>
      if (takeDigits r4).1.isEmpty then none
      else some ((takeDigits l).1 ++ '.' :: (takeDigits r2).1 ++ '.' :: (takeDigits r4).1,
        (takeDigits r4).2)
    | _ => none
  | _ => none

/-- The scan of `find_iter`, structurally recursive on a fuel bound.
Every step consumes at least one character of the scanned list
(`matchSemVer_rest_length`), so a fuel equal to the list's length never
runs out. -/
def findMatchesFuel : Nat → List Char → List (List Char)
  | 0, _ => []
  | _, [] => []
  | fuel + 1, c :: rest =>
    match matchSemVer (c :: rest) with
    | some mr => mr.1 :: findMatchesFuel fuel mr.2
    | none => findMatchesFuel fuel rest

/-- Embedding of `sem_ver_regex.find_iter(line)`: the non-overlapping,
leftmost matches of `[0-9]+\.[0-9]+\.[0-9]+`, in order. The scan tries
each start position from the left; after a match it resumes right
after the matched text. -/
def findMatches (l : List Char) : List (List Char) :=
  findMatchesFuel l.length l

/-- The status substring marking an up-to-date component. -/
def upToDateMarker : List Char := "Up to date".toList

/-- The status substring marking an available update. -/
def updateAvailableMarker : List Char := "Update available".toList

/-- The name/status separator `" - "`. -/
def nameSep : List Char := " - ".toList

/-- The panics that can abort `get_new_versions`. -/
inductive ParseError
  | malformedLine (line : List Char)
  | noRegexMatch (line : List Char)
deriving DecidableEq

/-- One report entry collection: component name mapped to the optional
new version. Models the `HashMap<&str, Option<&str>>` as an association
list (insertion replaces an existing key). -/
abbrev VersionMap := List (List Char × Option (List Char))

/-- `HashMap::insert`: replace the value of an existing key, otherwise
add the binding. -/
def insertEntry (m : VersionMap) (k : List Char) (v : Option (List Char)) : VersionMap :=
  match m with
  | [] => [(k, v)]
  | (k', v') :: rest =>
    if k' = k then (k, v) :: rest else (k', v') :: insertEntry rest k v

/-- The loop body of `get_new_versions` for one line: extract the name
(before the first `" - "`), then classify by substring search over the
whole line — `"Up to date"` first, then `"Update available"` with the
last regex match as the new version; anything else panics, as does an
available line with no regex match. -/
def parseLine (line : List Char) : Except ParseError (List Char × Option (List Char)) :=
  let name := takeBeforeSep nameSep line
  if listContains line upToDateMarker then .ok (name, none)
  else if listContains line updateAvailableMarker then
    match (findMatches line).getLast? with
    | some v => .ok (name, some v)
    | none => .error (.noRegexMatch line)
  else .error (.malformedLine line)

/-- The fold of `get_new_versions` over the lines, threading the map;
a panic on any line aborts the whole batch. -/
def get_new_versionsAux (m : VersionMap) : List (List Char) → Except ParseError VersionMap
  | [] => .ok m
  | line :: rest =>
    match parseLine line with
    | .ok kv => get_new_versionsAux (insertEntry m kv.1 kv.2) rest
    | .error e => .error e

/-- Embedding of `get_new_versions(rustup_check_lines)`. -/
def get_new_versions (lines : List (List Char)) : Except ParseError VersionMap :=
  get_new_versionsAux [] lines

/-- The `io::ErrorKind` values the code distinguishes: `NotFound` versus
everything else (one representative non-`NotFound` kind is enough for
the branches taken, plus a catch-all). -/
inductive IOErrorKind
  | notFound
  | permissionDenied
  | otherKind
deriving DecidableEq

/-- Outcome of `fs::File::open` on the flag file, derived from the flag
file's state `st` (its mtime when present) and an optional injected
I/O fault. -/
def openFlag (st : Option Int) (fault : Option IOErrorKind) : Except IOErrorKind Int :=
  match fault with
  | some e => .error e
  | none =>
    match st with
    | none => .error .notFound
    | some t => .ok t

/-- Embedding of `read_no_update_flag()`, as a function of the
`File::open` outcome. The Rust `Err` arm returns `None` early only for
`NotFound`; any other error kind falls out of the `match` and reaches
the trailing `return None`, so both error branches produce `none`. -/
def read_no_update_flag (openResult : Except IOErrorKind Int) : Option Int :=
  match openResult with
  | .error e => if e = .notFound then none else none
  | .ok mtime => some mtime

/-- `NO_UPDATE_FLAG_DELAY`: the suppression cooldown, in seconds. -/
def NO_UPDATE_FLAG_DELAY : Nat := 60 * 60 * 24

/-- `u64::checked_sub`: `none` exactly when the subtrahend exceeds the
minuend. -/
def checked_sub (a b : Nat) : Option Nat :=
  if b ≤ a then some (a - b) else none

/-- Embedding of `should_prompt()`, as a function of the flag-file open
outcome and the current time `now` (seconds since the epoch, the `u64`
from `SystemTime::now`). -/
def should_prompt (openResult : Except IOErrorKind Int) (now : Nat) : Bool :=
  match read_no_update_flag openResult with
  | none => true
  | some write_time =>
    if write_time < 0 then true
    else
      match checked_sub now write_time.toNat with
      | none => true
      | some diff => decide (NO_UPDATE_FLAG_DELAY < diff)

/-- Outcome and state effect of `fs::remove_file` on the flag file: with
no injected fault it removes a present file (or reports `NotFound` for
an absent one); with a fault it fails leaving the state unchanged. -/
def remove_file (st : Option Int) (fault : Option IOErrorKind) :
    Except IOErrorKind Unit × Option Int :=
  match fault with
  | some e => (.error e, st)
  | none =>
    match st with
    | none => (.error .notFound, none)
    | some _ => (.ok (), none)

/-- Outcome and state effect of `fs::File::create` on the flag file:
with no injected fault it (re)creates the file with mtime `now`; with a
fault it fails leaving the state unchanged. -/
def create_file (st : Option Int) (fault : Option IOErrorKind) (now : Int) :
    Except IOErrorKind Unit × Option Int :=
  match fault with
  | some e => (.error e, st)
  | none => (.ok (), some now)

/-- Embedding of `set_no_update_flag(write_new_flag)`: first
`remove_file` (a `NotFound` failure is tolerated, any other failure is
returned), then, when `write_new_flag`, `File::create` with the `?`
operator. Returns the `io::Result` together with the flag file's
resulting state. -/
def set_no_update_flag (write_new_flag : Bool) (now : Int)
    (removeFault createFault : Option IOErrorKind) (st : Option Int) :
    Except IOErrorKind Unit × Option Int :=
  let rm := remove_file st removeFault
  match rm.1 with
  | .error e =>
    match e with
    | .notFound =>
      if write_new_flag then create_file rm.2 createFault now else (.ok (), rm.2)
    | _ => (.error e, rm.2)
  | .ok _ =>
    if write_new_flag then create_file rm.2 createFault now else (.ok (), rm.2)

/-- The `UpdatePromptAnswer` enum. -/
inductive UpdatePromptAnswer
  | NoUpdateFound
  | Update
  | DoNotUpdate
  | Timeout
deriving DecidableEq

/-- The panics that can abort `prompt_for_update` once it decides to
contact the dialog. -/
inductive PromptError
  | zenityMissing
  | zenityLaunchFailed (k : IOErrorKind)
  | unexpectedExit (code : Option Int)
deriving DecidableEq

/-- The exit-code mapping at the end of `prompt_for_update`:
`Some(0) => Update`, `Some(1) => DoNotUpdate`, `Some(5) => Timeout`,
anything else (any other code, or `None` when the child was killed by a
signal) panics. -/
def classifyZenityExit (code : Option Int) : Except PromptError UpdatePromptAnswer :=
  match code with
  | some c =>
    if c = 0 then .ok .Update
    else if c = 1 then .ok .DoNotUpdate
    else if c = 5 then .ok .Timeout
    else .error (.unexpectedExit (some c))
  | none => .error (.unexpectedExit none)

/-- Embedding of `prompt_for_update(new_versions)`, as a function of the
report and of oracles for the `zenity` spawn outcome and exit code.
The second component records whether the external dialog was invoked
(i.e. whether control reached the `Command::new("zenity")` spawn). -/
def prompt_for_update (report : VersionMap)
    (spawnResult : Except IOErrorKind Unit) (exitCode : Option Int) :
    Except PromptError UpdatePromptAnswer × Bool :=
  if report.all (fun kv => kv.2.isNone) then (.ok .NoUpdateFound, false)
  else
    match spawnResult with
    | .error e =>
      if e = .notFound then (.error .zenityMissing, true)
      else (.error (.zenityLaunchFailed e), true)
    | .ok _ => (classifyZenityExit exitCode, true)

/-- The fatal conditions that can abort an `auto_update` run (panics and
the propagated `io::Result` errors alike). -/
inductive RunError
  | checkFailed
  | parseFailed (e : ParseError)
  | ioError (k : IOErrorKind)
  | promptFailed (e : PromptError)
  | unreachableNoUpdate
  | updateFailed
deriving DecidableEq

/-- The oracle inputs of one `auto_update` run: the outcome of
`get_rustup_check` (its own panics collapsed into `.error ()`), the
clock readings, and the outcomes of the filesystem and subprocess
calls the run may perform. -/
structure RunEnv where
  checkResult : Except Unit (List (List Char))
  now : Nat
  setNow : Int
  readFault : Option IOErrorKind
  removeFault : Option IOErrorKind
  createFault : Option IOErrorKind
  spawnResult : Except IOErrorKind Unit
  exitCode : Option Int
  updateSucceeds : Bool

/-- Embedding of `auto_update()`: check, parse, then either clear the
flag (all entries `None`), or consult `should_prompt` and act on the
prompt answer. Returns the run's outcome together with the flag file's
final state. -/
def auto_update (env : RunEnv) (st : Option Int) : Except RunError Unit × Option Int :=
  match env.checkResult with
  | .error _ => (.error .checkFailed, st)
  | .ok lines =>
    match get_new_versions lines with
    | .error e => (.error (.parseFailed e), st)
    | .ok new_versions =>
      if new_versions.all (fun kv => kv.2.isNone) then
        match (set_no_update_flag false env.setNow env.removeFault env.createFault st).1 with
        | .error k =>
          (.error (.ioError k),
            (set_no_update_flag false env.setNow env.removeFault env.createFault st).2)
        | .ok _ =>
          (.ok (), (set_no_update_flag false env.setNow env.removeFault env.createFault st).2)
      else
        if should_prompt (openFlag st env.readFault) env.now then
          match (prompt_for_update new_versions env.spawnResult env.exitCode).1 with
          | .error e => (.error (.promptFailed e), st)
          | .ok .NoUpdateFound => (.error .unreachableNoUpdate, st)
          | .ok .DoNotUpdate =>
            match (set_no_update_flag true env.setNow env.removeFault env.createFault st).1 with
            | .error k =>
              (.error (.ioError k),
                (set_no_update_flag true env.setNow env.removeFault env.createFault st).2)
            | .ok _ =>
              (.ok (), (set_no_update_flag true env.setNow env.removeFault env.createFault st).2)
          | .ok .Timeout => (.ok (), st)
          | .ok .Update =>
            if env.updateSucceeds then (.ok (), st) else (.error .updateFailed, st)
        else (.ok (), st)

/-! Predicates transcribing the specification's wording, kept separate
from the source embedding above so the two can be compared. -/

/-- The `shouldPrompt` rule exactly as the specification words it:
absent flag prompts; a present flag prompts exactly when its timestamp
is in the future relative to `now` or the elapsed time since it exceeds
the 86400-second cooldown. -/
def shouldPromptSpec (flag : Option Int) (now : Nat) : Bool :=
  match flag with
  | none => true
  | some t => decide ((now : Int) < t) || decide ((86400 : Int) < (now : Int) - t)

/-- The specification's well-formed "up to date" line shape:
`"<name> - Up to date : <details>"`. -/
def isUpToDateShape (line : List Char) : Prop :=
  ∃ name details, line = name ++ " - Up to date : ".toList ++ details

/-- The specification's well-formed "update available" line shape:
`"<name> - Update available : <details>"`. -/
def isUpdateAvailableShape (line : List Char) : Prop :=
  ∃ name details, line = name ++ " - Update available : ".toList ++ details

/-- The batch-failure condition exactly as the specification words it:
some line matches neither shape, or some "update available" line
contains no `major.minor.patch` numeric pattern. -/
def specBatchFails (lines : List (List Char)) : Prop :=
  ∃ line ∈ lines,
    (¬ isUpToDateShape line ∧ ¬ isUpdateAvailableShape line) ∨
    (isUpdateAvailableShape line ∧ findMatches line = [])

/-! Concrete inputs used by witnesses and counterexamples. -/

/-- A well-formed "up to date" line (from the repository's own tests). -/
def upToDateLine : List Char := "rustup - Up to date : 1.27.1".toList

/-- A well-formed "update available" line. -/
def availLine : List Char := "stable - Update available : 1.80.0 -> 1.80.1".toList

/-- A well-formed "update available" line whose details also contain
the text `Up to date`. -/
def availUpToDateLine : List Char := "x - Update available : 1.0.0 (Up to date)".toList

/-- A well-formed "update available" line with no numeric version
triple, whose details also contain the text `Up to date`. -/
def availNoSemverLine : List Char := "x - Update available : soon (Up to date)".toList

/-- A line that contains both status markers and a version triple. -/
def bothMarkersLine : List Char := "a - Update available : Up to date 9.9.9".toList

/-- A report with one available update. -/
def oneUpdateReport : VersionMap := [("rust".toList, some "1.0.1".toList)]

/-- A report in which every entry is `None` (from the repository's own
`no_prompt` test). -/
def allNoneReport : VersionMap := [("Rust".toList, none), ("Rustup".toList, none)]

/-- A run whose user declines the prompt and whose flag re-creation
inside `set_no_update_flag(true)` fails after the old flag was already
removed. -/
def declineCreateFaultEnv : RunEnv where
  checkResult := .ok ["rust - Update available : 1.0.0 -> 1.0.1".toList]
  now := 200000
  setNow := 200000
  readFault := none
  removeFault := none
  createFault := some .permissionDenied
  spawnResult := .ok ()
  exitCode := some 1
  updateSucceeds := true

/-- A run whose dialog times out (exit code 5). -/
def timeoutEnv : RunEnv where
  checkResult := .ok ["rust - Update available : 1.0.0 -> 1.0.1".toList]
  now := 200000
  setNow := 200000
  readFault := none
  removeFault := none
  createFault := none
  spawnResult := .ok ()
  exitCode := some 5
  updateSucceeds := true

/-- A run whose `rustup check` invocation fails outright. -/
def checkFailEnv : RunEnv where
  checkResult := .error ()
  now := 0
  setNow := 0
  readFault := none
  removeFault := none
  createFault := none
  spawnResult := .ok ()
  exitCode := some 0
  updateSucceeds := true

/-! Helper lemmas. -/

theorem takeDigits_snd_length (l : List Char) : (takeDigits l).2.length ≤ l.length := by
  induction l with
  | nil => simp [takeDigits]
  | cons c rest ih =>
    simp only [takeDigits]
    split
    · exact Nat.le_succ_of_le ih
    · simp

theorem matchSemVer_rest_length {l m r : List Char}
    (h : matchSemVer l = some (m, r)) : r.length < l.length := by
  simp only [matchSemVer] at h
  split at h
  · exact absurd h (by simp)
  · split at h
    case _ r2 heq1 =>
      split at h
      · exact absurd h (by simp)
      · split at h
        case _ r4 heq2 =>
          split at h
          · exact absurd h (by simp)
          · have hr : r = (takeDigits r4).2 := by
              injection h with h
              exact (congrArg Prod.snd h).symm
            have h1 : r.length ≤ r4.length := hr ▸ takeDigits_snd_length r4
            have h2 : r4.length < (takeDigits r2).2.length := by
              rw [heq2]; simp
            have h3 : (takeDigits r2).2.length ≤ r2.length := takeDigits_snd_length r2
            have h4 : r2.length < (takeDigits l).2.length := by
              rw [heq1]; simp
            have h5 : (takeDigits l).2.length ≤ l.length := takeDigits_snd_length l
            omega
        case _ => exact absurd h (by simp)
    case _ => exact absurd h (by simp)

theorem listContains_iff {hay needle : List Char} :
    listContains hay needle = true ↔ needle <:+: hay := by
  unfold listContains
  rw [List.any_eq_true]
  constructor
  · rintro ⟨t, ht, hp⟩
    rw [List.mem_tails] at ht
    rw [List.isPrefixOf_iff_prefix] at hp
    exact List.infix_iff_prefix_suffix.mpr ⟨t, hp, ht⟩
  · intro h
    obtain ⟨t, hp, hs⟩ := List.infix_iff_prefix_suffix.mp h
    exact ⟨t, (List.mem_tails _ _).mpr hs, List.isPrefixOf_iff_prefix.mpr hp⟩

theorem listContains_of_shape {line name mid details needle : List Char}
    (hline : line = name ++ mid ++ details) (h : needle <:+: mid) :
    listContains line needle = true := by
  subst hline
  exact listContains_iff.mpr (h.trans ⟨name, details, rfl⟩)

theorem upToDateMarker_infix : upToDateMarker <:+: " - Up to date : ".toList :=
  ⟨" - ".toList, " : ".toList, by decide⟩

theorem updateAvailableMarker_infix :
    updateAvailableMarker <:+: " - Update available : ".toList :=
  ⟨" - ".toList, " : ".toList, by decide⟩

theorem parseLine_of_contains_upToDate {line : List Char}
    (h : listContains line upToDateMarker = true) :
    parseLine line = .ok (takeBeforeSep nameSep line, none) := by
  simp [parseLine, h]

theorem parseLine_error_iff (line : List Char) :
    (∃ e, parseLine line = .error e) ↔
      (listContains line upToDateMarker = false ∧
        listContains line updateAvailableMarker = false) ∨
      (listContains line upToDateMarker = false ∧
        listContains line updateAvailableMarker = true ∧ findMatches line = []) := by
  unfold parseLine
  by_cases h1 : listContains line upToDateMarker
  · simp [h1]
  · by_cases h2 : listContains line updateAvailableMarker
    · simp only [h1, h2, Bool.false_eq_true, if_false, if_true, eq_self_iff_true]
      cases hm : (findMatches line).getLast? with
      | none =>
        rw [List.getLast?_eq_none_iff] at hm
        simp [h1, h2, hm]
      | some v =>
        have : findMatches line ≠ [] := by
          intro hc
          rw [hc] at hm
          exact absurd hm (by simp)
        simp [h1, h2, this]
    · simp [h1, h2]

theorem get_new_versionsAux_error_iff (lines : List (List Char)) :
    ∀ m, (∃ e, get_new_versionsAux m lines = .error e) ↔
      ∃ line ∈ lines, ∃ e, parseLine line = .error e := by
  induction lines with
  | nil => intro m; simp [get_new_versionsAux]
  | cons line rest ih =>
    intro m
    unfold get_new_versionsAux
    cases hp : parseLine line with
    | ok kv => simp [hp, ih]
    | error e => simp [hp]

/-! ## C10 — line classification is a whole-line substring search with
"Up to date" first -/

/-- C10: any line containing the substring `"Up to date"` anywhere —
whatever else it contains — is recorded as name ↦ `None` (name:
everything before the first `" - "`) and is never a parse error. -/
theorem parseLine_upToDate_anywhere (line : List Char)
    (h : listContains line upToDateMarker = true) :
    parseLine line = .ok (takeBeforeSep nameSep line, none) :=
  parseLine_of_contains_upToDate h

/-- Witness for C10: a line containing both `"Up to date"` and
`"Update available"` (plus a version triple) is recorded as ↦ `None`. -/
theorem parseLine_upToDate_anywhere_witness :
    listContains bothMarkersLine upToDateMarker = true ∧
    listContains bothMarkersLine updateAvailableMarker = true ∧
    parseLine bothMarkersLine = .ok ("a".toList, none) :=
  ⟨by decide, by decide, parseLine_upToDate_anywhere bothMarkersLine (by decide)⟩

/-! ## C2 — parsing of well-formed lines -/

/-- Counterexample to C2 as stated: a line of the well-formed
"update available" shape whose details also contain `"Up to date"` is
recorded as name ↦ `None`, not as name ↦ `Some` of the last version
triple (`"1.0.0"` here). -/
theorem parseLine_availableShape_upToDate_cex :
    isUpdateAvailableShape availUpToDateLine ∧
    (findMatches availUpToDateLine).getLast? = some "1.0.0".toList ∧
    parseLine availUpToDateLine = .ok ("x".toList, none) :=
  ⟨⟨"x".toList, "1.0.0 (Up to date)".toList, by decide⟩, by decide, by decide⟩

/-- C2 (amended): a line of the well-formed "up to date" shape is
recorded as name ↦ `None`; a line of the well-formed "update available"
shape **that does not contain the substring `"Up to date"`** is
recorded as name ↦ `Some v` with `v` the last version-triple match of
the line; the name is everything before the first `" - "`. -/
theorem parseLine_wellFormed_shapes (line : List Char) :
    (isUpToDateShape line → parseLine line = .ok (takeBeforeSep nameSep line, none)) ∧
    (isUpdateAvailableShape line → listContains line upToDateMarker = false →
      ∀ v, (findMatches line).getLast? = some v →
        parseLine line = .ok (takeBeforeSep nameSep line, some v)) := by
  constructor
  · rintro ⟨name, details, hline⟩
    exact parseLine_of_contains_upToDate (listContains_of_shape hline upToDateMarker_infix)
  · rintro ⟨name, details, hline⟩ hUTD v hv
    have hUA : listContains line updateAvailableMarker = true :=
      listContains_of_shape hline updateAvailableMarker_infix
    simp [parseLine, hUTD, hUA, hv]

/-- Witness for C2 (amended), at the repository's own test lines. -/
theorem parseLine_wellFormed_shapes_witness :
    parseLine upToDateLine = .ok ("rustup".toList, none) ∧
    parseLine availLine = .ok ("stable".toList, some "1.80.1".toList) := by
  constructor
  · exact (parseLine_wellFormed_shapes upToDateLine).1
      ⟨"rustup".toList, "1.27.1".toList, by decide⟩
  · exact (parseLine_wellFormed_shapes availLine).2
      ⟨"stable".toList, "1.80.0 -> 1.80.1".toList, by decide⟩ (by decide)
      ("1.80.1".toList) (by decide)

/-! ## C5 — exact batch-failure condition -/

/-- Counterexample to C5 as stated: a batch whose only line has the
well-formed "update available" shape and no version triple satisfies
the claimed failure condition, yet the parse succeeds (the line also
contains `"Up to date"`, so it is recorded as ↦ `None`). -/
theorem get_new_versions_spec_failure_cex :
    specBatchFails [availNoSemverLine] ∧
    get_new_versions [availNoSemverLine] = .ok [("x".toList, none)] :=
  ⟨⟨availNoSemverLine, List.mem_singleton.mpr rfl,
    Or.inr ⟨⟨"x".toList, "soon (Up to date)".toList, by decide⟩, by decide⟩⟩, by decide⟩

/-- C5 (amended): the batch parse fails exactly when some line contains
neither status marker, or some line **that contains
`"Update available"` but not `"Up to date"`** contains no version
triple; and no line is ever skipped: on success every line was parsed
to an entry. -/
theorem get_new_versions_failure_characterization (lines : List (List Char)) :
    ((∃ e, get_new_versions lines = .error e) ↔
      ∃ line ∈ lines,
        (listContains line upToDateMarker = false ∧
          listContains line updateAvailableMarker = false) ∨
        (listContains line upToDateMarker = false ∧
          listContains line updateAvailableMarker = true ∧ findMatches line = [])) ∧
    (∀ m, get_new_versions lines = .ok m →
      ∀ line ∈ lines, ∃ kv, parseLine line = .ok kv) := by
  constructor
  · rw [get_new_versions, get_new_versionsAux_error_iff]
    constructor
    · rintro ⟨line, hmem, e, he⟩
      exact ⟨line, hmem, (parseLine_error_iff line).mp ⟨e, he⟩⟩
    · rintro ⟨line, hmem, hcond⟩
      obtain ⟨e, he⟩ := (parseLine_error_iff line).mpr hcond
      exact ⟨line, hmem, e, he⟩
  · intro m hok line hmem
    cases hp : parseLine line with
    | ok kv => exact ⟨kv, rfl⟩
    | error e =>
      have : ∃ e, get_new_versionsAux [] lines = .error e :=
        (get_new_versionsAux_error_iff lines []).mpr ⟨line, hmem, e, hp⟩
      obtain ⟨e', he'⟩ := this
      rw [get_new_versions, he'] at hok
      exact absurd hok (by simp)

/-- Witness for C5 (amended): a marker-free line makes the whole batch
fail; on a successful batch every line parsed. -/
theorem get_new_versions_failure_characterization_witness :
    (∃ e, get_new_versions ["garbage".toList] = .error e) ∧
    (∃ kv, parseLine upToDateLine = .ok kv) := by
  constructor
  · exact (get_new_versions_failure_characterization ["garbage".toList]).1.mpr
      ⟨"garbage".toList, List.mem_singleton.mpr rfl, Or.inl ⟨by decide, by decide⟩⟩
  · exact (get_new_versions_failure_characterization [upToDateLine]).2
      [("rustup".toList, none)] (by decide) upToDateLine (List.mem_singleton.mpr rfl)

/-! ## C1 — the `should_prompt` rule -/

/-- Counterexample to C1 as stated: for a present flag with timestamp
`-1` at time `0`, the timestamp is neither in the future nor more than
86400 seconds in the past, so the claimed rule answers `false` — but
the code answers `true` (its dedicated negative-timestamp branch). -/
theorem should_prompt_spec_mismatch :
    should_prompt (openFlag (some (-1)) none) 0 = true ∧
    shouldPromptSpec (some (-1)) 0 = false :=
  ⟨by decide, by decide⟩

/-- C1 (amended): `should_prompt` is `true` iff the flag is absent, or
its timestamp is negative (before the epoch), or its timestamp is in
the future relative to `now`, or the elapsed time since it exceeds the
86400-second cooldown; in particular it is `false` right after a fresh
`set` (timestamp = `now`). -/
theorem should_prompt_characterization (flag : Option Int) (now : Nat) :
    should_prompt (openFlag flag none) now = true ↔
      flag = none ∨ ∃ t, flag = some t ∧
        (t < 0 ∨ (now : Int) < t ∨ (86400 : Int) < (now : Int) - t) := by
  cases flag with
  | none => simp [should_prompt, openFlag, read_no_update_flag]
  | some t =>
    simp only [should_prompt, openFlag, read_no_update_flag, checked_sub,
      NO_UPDATE_FLAG_DELAY, Option.some.injEq, reduceCtorEq, false_or,
      exists_eq_left']
    split_ifs with ht hle
    · simp
      omega
    · simp
      omega
    · simp
      omega

/-! ## C9 — negative flag timestamps always prompt -/

/-- C9: a present flag whose recorded modification time is negative
(before 1970) makes `should_prompt` return `true`, whatever `now` is. -/
theorem should_prompt_negative_mtime (t : Int) (now : Nat) (h : t < 0) :
    should_prompt (.ok t) now = true := by
  simp [should_prompt, read_no_update_flag, h]

/-- Witness for C9. -/
theorem should_prompt_negative_mtime_witness :
    (-5 : Int) < 0 ∧ should_prompt (.ok (-5)) 3 = true :=
  ⟨by decide, should_prompt_negative_mtime (-5) 3 (by decide)⟩

/-! ## C3 — `read` swallows non-`NotFound` I/O errors (code bug) -/

/-- C3 (evaluating the code at the failing input): `read_no_update_flag`
returns `None` for **every** failed open — a `PermissionDenied` (or
any other) error is indistinguishable from an absent flag, instead of
propagating as the spec demands; the mtime is returned on success. -/
theorem read_no_update_flag_swallows_errors :
    read_no_update_flag (.error .permissionDenied) = none ∧
    read_no_update_flag (.error .otherKind) = none ∧
    read_no_update_flag (.error .notFound) = none ∧
    read_no_update_flag (.ok 42) = some 42 :=
  ⟨rfl, rfl, rfl, rfl⟩

/-! ## C6 — the dialog exit-code protocol -/

/-- C6: once the dialog is reached (some update exists and the spawn
succeeded), exit code 0 yields `Update`, 1 yields `DoNotUpdate`,
5 yields `Timeout`, and any other termination — any other exit code,
or none at all — is a fatal error. -/
theorem prompt_exit_code_protocol (report : VersionMap)
    (h : report.all (fun kv => kv.2.isNone) = false) :
    prompt_for_update report (.ok ()) (some 0) = (.ok .Update, true) ∧
    prompt_for_update report (.ok ()) (some 1) = (.ok .DoNotUpdate, true) ∧
    prompt_for_update report (.ok ()) (some 5) = (.ok .Timeout, true) ∧
    (∀ c : Int, c ≠ 0 → c ≠ 1 → c ≠ 5 →
      prompt_for_update report (.ok ()) (some c) =
        (.error (.unexpectedExit (some c)), true)) ∧
    prompt_for_update report (.ok ()) none = (.error (.unexpectedExit none), true) := by
  refine ⟨?_, ?_, ?_, ?_, ?_⟩
  · simp [prompt_for_update, h, classifyZenityExit]
  · simp [prompt_for_update, h, classifyZenityExit]
  · simp [prompt_for_update, h, classifyZenityExit]
  · intro c h0 h1 h5
    simp [prompt_for_update, h, classifyZenityExit, h0, h1, h5]
  · simp [prompt_for_update, h, classifyZenityExit]

/-- Witness for C6, on a one-update report with exit code 2 as the
"other" code. -/
theorem prompt_exit_code_protocol_witness :
    oneUpdateReport.all (fun kv => kv.2.isNone) = false ∧
    prompt_for_update oneUpdateReport (.ok ()) (some 0) = (.ok .Update, true) ∧
    prompt_for_update oneUpdateReport (.ok ()) (some 1) = (.ok .DoNotUpdate, true) ∧
    prompt_for_update oneUpdateReport (.ok ()) (some 5) = (.ok .Timeout, true) ∧
    prompt_for_update oneUpdateReport (.ok ()) (some 2) =
      (.error (.unexpectedExit (some 2)), true) ∧
    prompt_for_update oneUpdateReport (.ok ()) none =
      (.error (.unexpectedExit none), true) := by
  have h := prompt_exit_code_protocol oneUpdateReport (by decide)
  exact ⟨by decide, h.1, h.2.1, h.2.2.1,
    h.2.2.2.1 2 (by decide) (by decide) (by decide), h.2.2.2.2⟩

/-! ## C7 — all-`None` reports never contact the dialog -/

/-- C7: on a report whose entries are all `None`, `prompt_for_update`
returns `NoUpdateFound` and never invokes the dialog, independently of
the spawn and exit-code oracles — a pure function of the report on
that path. -/
theorem prompt_all_none_no_dialog (report : VersionMap)
    (spawnResult : Except IOErrorKind Unit) (exitCode : Option Int)
    (h : report.all (fun kv => kv.2.isNone) = true) :
    prompt_for_update report spawnResult exitCode = (.ok .NoUpdateFound, false) := by
  simp [prompt_for_update, h]

/-- Witness for C7, on the repository's own `no_prompt` test report,
with hostile oracles (spawn would fail, exit code would be 99). -/
theorem prompt_all_none_no_dialog_witness :
    allNoneReport.all (fun kv => kv.2.isNone) = true ∧
    prompt_for_update allNoneReport (.error .otherKind) (some 99) =
      (.ok .NoUpdateFound, false) :=
  ⟨by decide,
    prompt_all_none_no_dialog allNoneReport (.error .otherKind) (some 99) (by decide)⟩

/-! ## C4 — flag state after a fatal abort -/

theorem set_false_error_state (now : Int) (rf cf : Option IOErrorKind)
    (st : Option Int) (k : IOErrorKind)
    (h : (set_no_update_flag false now rf cf st).1 = .error k) :
    (set_no_update_flag false now rf cf st).2 = st := by
  cases rf with
  | none => cases st <;> simp [set_no_update_flag, remove_file] at h
  | some e => cases e <;> simp [set_no_update_flag, remove_file] at h ⊢

theorem set_true_error_state (now : Int) (rf cf : Option IOErrorKind)
    (st : Option Int) (k : IOErrorKind)
    (h : (set_no_update_flag true now rf cf st).1 = .error k) :
    (set_no_update_flag true now rf cf st).2 = st ∨
      ((set_no_update_flag true now rf cf st).2 = none ∧ cf = some k) := by
  cases rf with
  | none =>
    cases cf with
    | none => cases st <;> simp [set_no_update_flag, remove_file, create_file] at h
    | some e =>
      cases st <;>
        (right
         constructor <;> simp_all [set_no_update_flag, remove_file, create_file])
  | some re =>
    cases re with
    | notFound =>
      cases cf with
      | none => simp [set_no_update_flag, remove_file, create_file] at h
      | some e => left; simp [set_no_update_flag, remove_file, create_file]
    | permissionDenied => left; simp [set_no_update_flag, remove_file]
    | otherKind => left; simp [set_no_update_flag, remove_file]

/-- Counterexample to C4 as stated: a run that fatally aborts inside
`set_no_update_flag(true)` (the flag re-creation fails after the old
flag was removed) does **not** leave the previously existing flag
(mtime 0) in place — the final flag state is `none`. -/
theorem auto_update_set_failure_cex :
    auto_update declineCreateFaultEnv (some 0) =
      (.error (.ioError .permissionDenied), none) ∧
    (some 0 : Option Int) ≠ none :=
  ⟨by decide, by decide⟩

/-- C4 (amended): a run that ends in a fatal error leaves the
suppression flag exactly as it was — except when the fatal error is a
failure of the flag-creation step inside `set()`, which runs after the
old flag was already deleted: then the flag is left absent. -/
theorem auto_update_fatal_flag_state (env : RunEnv) (st stF : Option Int) (e : RunError)
    (h : auto_update env st = (.error e, stF)) :
    stF = st ∨ (stF = none ∧ ∃ k, e = .ioError k ∧ env.createFault = some k) := by
  unfold auto_update at h
  split at h
  · injection h with h1 h2
    exact Or.inl h2.symm
  · split at h
    · injection h with h1 h2
      exact Or.inl h2.symm
    · split at h
      · split at h
        · next k hs =>
            injection h with h1 h2
            rw [← h2]
            exact Or.inl (set_false_error_state _ _ _ _ _ hs)
        · next u hs =>
            injection h with h1 h2
            exact absurd h1 (by simp)
      · split at h
        · split at h
          · next pe hpr =>
              injection h with h1 h2
              exact Or.inl h2.symm
          · next hpr =>
              injection h with h1 h2
              exact Or.inl h2.symm
          · next hpr =>
              split at h
              · next k hs =>
                  injection h with h1 h2
                  have hke : e = RunError.ioError k := by
                    injection h1 with h1
                    exact h1.symm
                  rcases set_true_error_state env.setNow env.removeFault
                      env.createFault st k hs with hl | ⟨hn, hcf⟩
                  · rw [← h2]
                    exact Or.inl hl
                  · exact Or.inr ⟨h2.symm.trans hn, k, hke, hcf⟩
              · next u hs =>
                  injection h with h1 h2
                  exact absurd h1 (by simp)
          · next hpr =>
              injection h with h1 h2
              exact absurd h1 (by simp)
          · next hpr =>
              split at h
              · injection h with h1 h2
                exact absurd h1 (by simp)
              · injection h with h1 h2
                exact Or.inl h2.symm
        · injection h with h1 h2
          exact absurd h1 (by simp)

/-- Witness for C4 (amended): a run whose `rustup check` fails aborts
with the flag untouched. -/
theorem auto_update_fatal_flag_state_witness :
    auto_update checkFailEnv (some 3) = (.error .checkFailed, some 3) ∧
    ((some 3 : Option Int) = some 3 ∨
      ((some 3 : Option Int) = none ∧
        ∃ k, RunError.checkFailed = RunError.ioError k ∧
          checkFailEnv.createFault = some k)) :=
  ⟨by decide,
    auto_update_fatal_flag_state checkFailEnv (some 3) (some 3) .checkFailed (by decide)⟩

/-! ## C8 — a `Timeout` outcome leaves the flag untouched -/

/-- C8: when the run reaches the dialog and its outcome is `Timeout`,
`auto_update` terminates successfully and the suppression flag's final
state equals its initial state. -/
theorem auto_update_timeout_no_mutation (env : RunEnv) (st : Option Int)
    (lines : List (List Char)) (m : VersionMap)
    (hcheck : env.checkResult = .ok lines)
    (hparse : get_new_versions lines = .ok m)
    (hupd : m.all (fun kv => kv.2.isNone) = false)
    (hsp : should_prompt (openFlag st env.readFault) env.now = true)
    (hto : (prompt_for_update m env.spawnResult env.exitCode).1 = .ok .Timeout) :
    auto_update env st = (.ok (), st) := by
  unfold auto_update
  rw [hcheck]
  simp [hparse, hupd, hsp, hto]

/-- Witness for C8: a concrete timed-out run (exit code 5) starting
with a one-hour-stale flag, ending with the same flag. -/
theorem auto_update_timeout_no_mutation_witness :
    (prompt_for_update oneUpdateReport timeoutEnv.spawnResult timeoutEnv.exitCode).1 =
      .ok .Timeout ∧
    auto_update timeoutEnv (some 0) = (.ok (), some 0) :=
  ⟨by decide,
    auto_update_timeout_no_mutation timeoutEnv (some 0)
      ["rust - Update available : 1.0.0 -> 1.0.1".toList] oneUpdateReport
      rfl (by decide) (by decide) (by decide) (by decide)⟩

end AutoRustup
